import Mathlib

/-!
Verification of the perturbation-sampling subsystem of the DeepES
distributed Evolution-Strategies optimizer (PaddlePaddle/RL, `deepes`).

The repository exposes only the factory declaration
(`sampling_factory.h`): `create_sampling_method(const DeepESConfig&)`
returning a `shared_ptr<SamplingMethod>`, dispatching to
`GaussianSampling` and `CachedGaussianSampling`.  The strategy internals
are absent from the available sources, so the operational definitions
below are modelled from the specification's description of the
subsystem, and all behavioral theorems are stated against this model.
-/

set_option maxRecDepth 8000

namespace DeepES

/-- Error kinds of the subsystem: an unrecognized strategy kind at the
factory, an invalid configuration parameter at construction, and a
malformed or out-of-range token at reconstruction. -/
inductive DeepESError where
  | UnsupportedSamplingKind
  | ConfigError
  | InvalidToken
  deriving DecidableEq, Repr

/-- Modelled from the spec: the configuration record is an opaque,
externally owned message (`DeepESConfig`, `deepes.pb.h`) exposing at
least the strategy kind, the noise standard deviation, the cache table
size, and an optional fixed seed; the field `unrelated` stands for the
rest of the serialized record, which this subsystem does not read. -/
structure DeepESConfig where
  sampling_kind : String
  std_dev : Rat
  cache_table_size : Nat
  seed : Nat
  unrelated : List String
  deriving DecidableEq, Repr

/-- Modelled from the spec: a deterministic, portable pseudo-random
generator whose output sequence depends only on the seed and call
order; a 64-bit linear congruential step. -/
def lcgNext (s : Nat) : Nat :=
  (1442695040888963407 + 6364136223846793005 * s) % 2 ^ 64

/-- The generator output at position `i` of the stream seeded by
`seed` (0-indexed; position 0 is the first draw after seeding). -/
def prngAt (seed : Nat) : Nat → Nat
  | 0 => lcgNext seed
  | n + 1 => lcgNext (prngAt seed n)

/-- Modelled from the spec: a standard-normal draw as a deterministic
function of one generator output (the exact numeric transform is
irrelevant to the reproducibility contract; only determinism and
portability matter). -/
def normalFromBits (x : Nat) : Rat :=
  ((x % 2001 : Nat) : Rat) / 1000 - 1

/-- Modelled from the spec: `d` independent standard-normal draws from
the stream seeded by `seed`, scaled by the standard deviation `std`. -/
def mkNoise (seed : Nat) (d : Nat) (std : Rat) : List Rat :=
  (List.range d).map (fun i => std * normalFromBits (prngAt seed i))

/-- Modelled from the spec: the token is a small fixed-size value, a
single integer seed for the plain strategy or an (offset, sign) pair
for the cached strategy. -/
inductive SamplingToken where
  | seedToken : Nat → SamplingToken
  | cachedToken : Nat → Bool → SamplingToken
  deriving DecidableEq, Repr

/-- Negate every element when the sign bit is set, otherwise return the
list unchanged (mirrored-sampling sign application). -/
def applySign (b : Bool) (xs : List Rat) : List Rat :=
  if b then xs.map (fun x => -x) else xs

/-- Modelled from the spec: `GaussianSampling` holds only the
standard-deviation parameter and the state of the generator used to
draw fresh per-call seeds. -/
structure GaussianSampling where
  std_dev : Rat
  gen : Nat
  deriving DecidableEq, Repr

/-- Modelled from the spec: the plain strategy is constructed from the
configuration's standard deviation and seed. -/
def GaussianSampling.create (cfg : DeepESConfig) : GaussianSampling :=
  { std_dev := cfg.std_dev, gen := cfg.seed }

/-- Modelled from the spec: `sample` draws a fresh seed, seeds a
generator, draws `d` independent standard-normal values scaled by the
standard deviation, and returns the seed as the token; the fresh seed
advances the instance's generator state. -/
def GaussianSampling.sample (g : GaussianSampling) (d : Nat) :
    List Rat × SamplingToken × GaussianSampling :=
  let fresh := lcgNext g.gen
  (mkNoise fresh d g.std_dev, SamplingToken.seedToken fresh,
    { g with gen := fresh })

/-- Modelled from the spec: `resample` re-seeds an identical generator
with the stored seed and redraws the same sequence; a token of the
wrong shape is malformed and fails with `InvalidToken`. -/
def GaussianSampling.resample (g : GaussianSampling) (t : SamplingToken)
    (d : Nat) : Except DeepESError (List Rat) :=
  match t with
  | SamplingToken.seedToken s => Except.ok (mkNoise s d g.std_dev)
  | SamplingToken.cachedToken _ _ => Except.error DeepESError.InvalidToken

/-- Modelled from the spec: `CachedGaussianSampling` holds the
standard-deviation parameter, the noise table generated once at
construction, and the state of the generator used to draw offsets and
sign bits. -/
structure CachedGaussianSampling where
  std_dev : Rat
  table : List Rat
  gen : Nat
  deriving DecidableEq, Repr

/-- Modelled from the spec: the noise table is one large sequence of
independent standard-normal values generated from the fixed, shared
seed at startup. -/
def mkTable (seed : Nat) (size : Nat) : List Rat :=
  (List.range size).map (fun i => normalFromBits (prngAt seed i))

/-- Modelled from the spec: the cached constructor generates the table
once from the configured seed and fails with `ConfigError` if the
configured table size is smaller than the expected dimension, before
any sampling occurs. -/
def CachedGaussianSampling.create (cfg : DeepESConfig) (dimension : Nat) :
    Except DeepESError CachedGaussianSampling :=
  if cfg.cache_table_size < dimension then Except.error DeepESError.ConfigError
  else Except.ok
    { std_dev := cfg.std_dev
      table := mkTable cfg.seed cfg.cache_table_size
      gen := cfg.seed }

/-- Modelled from the spec: `sample(d)` picks a random offset in
`[0, tableSize - d]` and a random sign bit, returns the contiguous
sub-range of the table (sign-flipped when the bit is set) as the noise
vector and `(offset, sign)` as the token; a dimension exceeding the
table size is a configuration error. -/
def CachedGaussianSampling.sample (g : CachedGaussianSampling) (d : Nat) :
    Except DeepESError (List Rat × SamplingToken × CachedGaussianSampling) :=
  if g.table.length < d then Except.error DeepESError.ConfigError
  else
    let r1 := lcgNext g.gen
    let offset := r1 % (g.table.length - d + 1)
    let r2 := lcgNext r1
    let sign := decide (r2 % 2 = 1)
    Except.ok (applySign sign ((g.table.drop offset).take d),
      SamplingToken.cachedToken offset sign, { g with gen := r2 })

/-- Modelled from the spec: `resample(token, d)` slices the table at
`offset` for `d` elements and applies the sign; it fails with
`InvalidToken` when the token is of the wrong shape or the slice
`[offset, offset + d)` does not fit in the table. -/
def CachedGaussianSampling.resample (g : CachedGaussianSampling)
    (t : SamplingToken) (d : Nat) : Except DeepESError (List Rat) :=
  match t with
  | SamplingToken.cachedToken offset sign =>
      if offset + d ≤ g.table.length then
        Except.ok (applySign sign ((g.table.drop offset).take d))
      else Except.error DeepESError.InvalidToken
  | SamplingToken.seedToken _ => Except.error DeepESError.InvalidToken

/-- The closed set of strategies behind the `SamplingMethod` interface,
as dispatched by the factory. -/
inductive SamplingMethod where
  | gaussian : GaussianSampling → SamplingMethod
  | cached : CachedGaussianSampling → SamplingMethod
  deriving DecidableEq, Repr

/-- Interface dispatch of `sample`. -/
def SamplingMethod.sample (m : SamplingMethod) (d : Nat) :
    Except DeepESError (List Rat × SamplingToken × SamplingMethod) :=
  match m with
  | SamplingMethod.gaussian g =>
      let r := g.sample d
      Except.ok (r.1, r.2.1, SamplingMethod.gaussian r.2.2)
  | SamplingMethod.cached g =>
      (g.sample d).map (fun r => (r.1, r.2.1, SamplingMethod.cached r.2.2))

/-- Interface dispatch of `resample`. -/
def SamplingMethod.resample (m : SamplingMethod) (t : SamplingToken)
    (d : Nat) : Except DeepESError (List Rat) :=
  match m with
  | SamplingMethod.gaussian g => g.resample t d
  | SamplingMethod.cached g => g.resample t d

/-- Whether a token is well-formed and in range for the strategy's
current configuration (the check performed by `resample`). -/
def SamplingMethod.validToken (m : SamplingMethod) (t : SamplingToken)
    (d : Nat) : Bool :=
  match m, t with
  | SamplingMethod.gaussian _, SamplingToken.seedToken _ => true
  | SamplingMethod.cached g, SamplingToken.cachedToken offset _ =>
      decide (offset + d ≤ g.table.length)
  | _, _ => false

/-- The state of a process after issuing a sequence of `sample` calls
of the given dimensions (a failed call leaves the state unchanged). -/
def applySamples : SamplingMethod → List Nat → SamplingMethod
  | m, [] => m
  | m, d :: ds =>
      match m.sample d with
      | Except.ok r => applySamples r.2.2 ds
      | Except.error _ => applySamples m ds

/-- The cached instance after issuing a sequence of `sample` calls of
the given dimensions (a failed call leaves the state unchanged). -/
def CachedGaussianSampling.runSamples :
    CachedGaussianSampling → List Nat → CachedGaussianSampling
  | g, [] => g
  | g, d :: ds =>
      match g.sample d with
      | Except.ok r => CachedGaussianSampling.runSamples r.2.2 ds
      | Except.error _ => CachedGaussianSampling.runSamples g ds

/-- Modelled from the spec: `create_sampling_method` (declared in
`sampling_factory.h`, implementation absent from the sources) reads the
configuration's strategy kind and dispatches to the matching concrete
constructor, failing with `UnsupportedSamplingKind` on any kind outside
plain-Gaussian and cached-Gaussian; the expected dimension is passed
alongside the configuration so the cached constructor can validate the
table size against it. -/
def create_sampling_method (cfg : DeepESConfig) (dimension : Nat) :
    Except DeepESError SamplingMethod :=
  if cfg.sampling_kind = "plain-Gaussian" then
    Except.ok (SamplingMethod.gaussian (GaussianSampling.create cfg))
  else if cfg.sampling_kind = "cached-Gaussian" then
    (CachedGaussianSampling.create cfg dimension).map SamplingMethod.cached
  else Except.error DeepESError.UnsupportedSamplingKind

/-! Helper lemmas shared by the claim theorems. -/

theorem mkNoise_length (seed d : Nat) (std : Rat) :
    (mkNoise seed d std).length = d := by
  simp [mkNoise]

theorem applySign_length (b : Bool) (xs : List Rat) :
    (applySign b xs).length = xs.length := by
  cases b <;> simp [applySign]

theorem applySign_getElem (b : Bool) (xs : List Rat) (i : Nat) :
    (applySign b xs)[i]? = (xs[i]?).map (fun x => if b then -x else x) := by
  cases b
  · simp [applySign]
  · simp [applySign, List.getElem?_map]

/-- Characterization of a successful cached `sample` call. -/
theorem CachedGaussianSampling.sample_eq (g : CachedGaussianSampling)
    (d : Nat) (h : d ≤ g.table.length) :
    g.sample d = Except.ok
      (applySign (decide (lcgNext (lcgNext g.gen) % 2 = 1))
         ((g.table.drop (lcgNext g.gen % (g.table.length - d + 1))).take d),
       SamplingToken.cachedToken (lcgNext g.gen % (g.table.length - d + 1))
         (decide (lcgNext (lcgNext g.gen) % 2 = 1)),
       { g with gen := lcgNext (lcgNext g.gen) }) := by
  unfold CachedGaussianSampling.sample
  rw [if_neg (by omega)]

/-- A cached `sample` call with a dimension exceeding the table fails. -/
theorem CachedGaussianSampling.sample_err (g : CachedGaussianSampling)
    (d : Nat) (h : g.table.length < d) :
    g.sample d = Except.error DeepESError.ConfigError := by
  unfold CachedGaussianSampling.sample
  rw [if_pos h]

/-- A successful cached `sample` call leaves the table and the
standard deviation unchanged. -/
theorem CachedGaussianSampling.sample_frame (g : CachedGaussianSampling)
    (d : Nat) (r : List Rat × SamplingToken × CachedGaussianSampling)
    (h : g.sample d = Except.ok r) :
    r.2.2.table = g.table ∧ r.2.2.std_dev = g.std_dev := by
  by_cases hd : d ≤ g.table.length
  · rw [CachedGaussianSampling.sample_eq g d hd] at h
    cases h
    exact ⟨rfl, rfl⟩
  · rw [CachedGaussianSampling.sample_err g d (by omega)] at h
    cases h

/-- Unfolding of cached `resample` at an (offset, sign) token. -/
theorem CachedGaussianSampling.resample_cached (g : CachedGaussianSampling)
    (o : Nat) (b : Bool) (d : Nat) :
    g.resample (SamplingToken.cachedToken o b) d =
      if o + d ≤ g.table.length then
        Except.ok (applySign b ((g.table.drop o).take d))
      else Except.error DeepESError.InvalidToken := rfl

/-- Cached `resample` reads only the table and the token. -/
theorem CachedGaussianSampling.resample_congr
    (g1 g2 : CachedGaussianSampling) (h : g1.table = g2.table)
    (t : SamplingToken) (d : Nat) : g1.resample t d = g2.resample t d := by
  cases t <;> simp [CachedGaussianSampling.resample, h]

/-- A successful interface-level `sample` call does not change what
`resample` returns for any token. -/
theorem SamplingMethod.sample_preserves_resample (m : SamplingMethod)
    (d0 : Nat) (r : List Rat × SamplingToken × SamplingMethod)
    (h : m.sample d0 = Except.ok r) (t : SamplingToken) (d : Nat) :
    r.2.2.resample t d = m.resample t d := by
  cases m with
  | gaussian g =>
      simp only [SamplingMethod.sample] at h
      cases h
      cases t <;> rfl
  | cached g =>
      simp only [SamplingMethod.sample] at h
      cases hg : g.sample d0 with
      | ok r0 =>
          rw [hg] at h
          simp only [Except.map] at h
          cases h
          simp only [SamplingMethod.resample]
          exact CachedGaussianSampling.resample_congr _ _
            (CachedGaussianSampling.sample_frame g d0 r0 hg).1 t d
      | error e =>
          rw [hg] at h
          simp [Except.map] at h

/-- `resample` is invariant under any history of `sample` calls. -/
theorem applySamples_resample (ds : List Nat) (m : SamplingMethod)
    (t : SamplingToken) (d : Nat) :
    (applySamples m ds).resample t d = m.resample t d := by
  induction ds generalizing m with
  | nil => rfl
  | cons d0 ds ih =>
      simp only [applySamples]
      cases h : m.sample d0 with
      | ok r =>
          rw [ih r.2.2]
          exact SamplingMethod.sample_preserves_resample m d0 r h t d
      | error e => exact ih m

/-- The factory reads only the four sampling-related fields of the
configuration. -/
theorem create_sampling_method_congr (c1 c2 : DeepESConfig) (dim : Nat)
    (hk : c1.sampling_kind = c2.sampling_kind)
    (hs : c1.std_dev = c2.std_dev)
    (hts : c1.cache_table_size = c2.cache_table_size)
    (hsd : c1.seed = c2.seed) :
    create_sampling_method c1 dim = create_sampling_method c2 dim := by
  simp only [create_sampling_method, GaussianSampling.create,
    CachedGaussianSampling.create, hk, hs, hts, hsd]

/-- `runSamples` never changes the cached table. -/
theorem CachedGaussianSampling.runSamples_table (ds : List Nat)
    (g : CachedGaussianSampling) : (g.runSamples ds).table = g.table := by
  induction ds generalizing g with
  | nil => rfl
  | cons d0 ds ih =>
      simp only [CachedGaussianSampling.runSamples]
      cases h : g.sample d0 with
      | ok r =>
          rw [ih r.2.2]
          exact (CachedGaussianSampling.sample_frame g d0 r h).1
      | error e => exact ih g

/-! The claim theorems. -/

/-- Claim C1: for every sampling token and dimension, any two instances
constructed from matching configurations return the identical noise
vector from `resample`, regardless of how many `sample` calls each has
issued since construction; the reconstructed vector is a function of
the token and the configuration alone. -/
theorem c1_token_determinism (c1 c2 : DeepESConfig) (dim : Nat)
    (hk : c1.sampling_kind = c2.sampling_kind)
    (hs : c1.std_dev = c2.std_dev)
    (hts : c1.cache_table_size = c2.cache_table_size)
    (hsd : c1.seed = c2.seed) (m1 m2 : SamplingMethod)
    (h1 : create_sampling_method c1 dim = Except.ok m1)
    (h2 : create_sampling_method c2 dim = Except.ok m2)
    (ds1 ds2 : List Nat) (t : SamplingToken) (d : Nat) :
    (applySamples m1 ds1).resample t d = (applySamples m2 ds2).resample t d := by
  have hc := create_sampling_method_congr c1 c2 dim hk hs hts hsd
  rw [h1, h2] at hc
  injection hc with h3
  subst h3
  rw [applySamples_resample, applySamples_resample]

/-- Witness for C1 at a concrete configuration: two processes with the
same construction but different sampling histories reconstruct the
same vector for the same token. -/
theorem c1_token_determinism_witness :
    (applySamples (SamplingMethod.gaussian ⟨1, 7⟩) []).resample
        (SamplingToken.seedToken 3) 2 =
      (applySamples (SamplingMethod.gaussian ⟨1, 7⟩) [2]).resample
        (SamplingToken.seedToken 3) 2 :=
  c1_token_determinism ⟨"plain-Gaussian", 1, 0, 7, []⟩
    ⟨"plain-Gaussian", 1, 0, 7, []⟩ 4 rfl rfl rfl rfl
    (SamplingMethod.gaussian ⟨1, 7⟩) (SamplingMethod.gaussian ⟨1, 7⟩)
    rfl rfl [] [2] (SamplingToken.seedToken 3) 2

/-- Claim C2: for GaussianSampling, `resample` applied to the token
returned by `sample` returns exactly the noise vector `sample`
produced, on any instance with the same standard deviation. -/
theorem c2_gaussian_roundtrip (g h : GaussianSampling)
    (hs : h.std_dev = g.std_dev) (d : Nat) :
    h.resample (g.sample d).2.1 d = Except.ok (g.sample d).1 := by
  show Except.ok (mkNoise (lcgNext g.gen) d h.std_dev) =
    Except.ok (mkNoise (lcgNext g.gen) d g.std_dev)
  rw [hs]

/-- Witness for C2 at a concrete seed and dimension. -/
theorem c2_gaussian_roundtrip_witness :
    GaussianSampling.resample ⟨1, 0⟩
        ((GaussianSampling.sample ⟨1, 42⟩ 3).2.1) 3 =
      Except.ok ((GaussianSampling.sample ⟨1, 42⟩ 3).1) :=
  c2_gaussian_roundtrip ⟨1, 42⟩ ⟨1, 0⟩ rfl 3

/-- Claim C3: for CachedGaussianSampling with `o + d ≤ tableSize`,
`resample((o, b), d)` succeeds with a vector of length `d` whose
element at each position `i < d` is the table entry at index `o + i`,
negated exactly when the sign bit is set. -/
theorem c3_cached_resample_slice (g : CachedGaussianSampling)
    (o : Nat) (b : Bool) (d : Nat) (h : o + d ≤ g.table.length)
    (i : Nat) (hi : i < d) :
    ∃ v, g.resample (SamplingToken.cachedToken o b) d = Except.ok v ∧
      v.length = d ∧
      v[i]? = (g.table[o + i]?).map (fun x => if b then -x else x) := by
  refine ⟨applySign b ((g.table.drop o).take d), ?_, ?_, ?_⟩
  · rw [CachedGaussianSampling.resample_cached, if_pos h]
  · rw [applySign_length, List.length_take, List.length_drop]
    omega
  · rw [applySign_getElem]
    congr 1
    rw [List.getElem?_take, if_pos hi, List.getElem?_drop]

/-- Witness for C3 at a concrete table, offset, sign and index. -/
theorem c3_cached_resample_slice_witness :
    ∃ v : List Rat, CachedGaussianSampling.resample ⟨1, mkTable 7 5, 0⟩
        (SamplingToken.cachedToken 1 true) 2 = Except.ok v ∧
      v.length = 2 ∧
      v[0]? = Option.map (fun x : Rat => if (true : Bool) then -x else x)
        ((⟨1, mkTable 7 5, 0⟩ : CachedGaussianSampling).table[1 + 0]?) :=
  c3_cached_resample_slice ⟨1, mkTable 7 5, 0⟩ 1 true 2 (by decide) 0
    (by decide)

/-- Claim C4: `create_sampling_method` maps any unrecognized kind to
the error `UnsupportedSamplingKind` without constructing an instance,
and maps each recognized kind to its matching concrete constructor. -/
theorem c4_factory_dispatch (cfg : DeepESConfig) (dim : Nat) :
    (cfg.sampling_kind ≠ "plain-Gaussian" ∧
        cfg.sampling_kind ≠ "cached-Gaussian" →
      create_sampling_method cfg dim =
        Except.error DeepESError.UnsupportedSamplingKind) ∧
    (cfg.sampling_kind = "plain-Gaussian" →
      create_sampling_method cfg dim =
        Except.ok (SamplingMethod.gaussian (GaussianSampling.create cfg))) ∧
    (cfg.sampling_kind = "cached-Gaussian" →
      create_sampling_method cfg dim =
        (CachedGaussianSampling.create cfg dim).map SamplingMethod.cached) := by
  refine ⟨fun h => ?_, fun h => ?_, fun h => ?_⟩
  · unfold create_sampling_method
    rw [if_neg h.1, if_neg h.2]
  · unfold create_sampling_method
    rw [if_pos h]
  · simp [create_sampling_method, h]

/-- Witness for C4 at a concrete unrecognized kind. -/
theorem c4_factory_dispatch_witness :
    create_sampling_method ⟨"mixture", 1, 100, 7, []⟩ 20 =
      Except.error DeepESError.UnsupportedSamplingKind :=
  (c4_factory_dispatch ⟨"mixture", 1, 100, 7, []⟩ 20).1 ⟨by decide, by decide⟩

/-- Claim C5: every successful cached `sample` call returns a token
whose offset satisfies `offset + dimension ≤ tableSize`; in particular
with a table of 10 000 000 entries and dimension 1000 the offset is at
most 9 999 000. -/
theorem c5_offset_invariant (g : CachedGaussianSampling) (d : Nat)
    (v : List Rat) (o : Nat) (b : Bool) (g2 : CachedGaussianSampling)
    (h : g.sample d = Except.ok (v, SamplingToken.cachedToken o b, g2)) :
    o + d ≤ g.table.length ∧
    (g.table.length = 10000000 → d = 1000 → o ≤ 9999000) := by
  by_cases hd : d ≤ g.table.length
  · rw [CachedGaussianSampling.sample_eq g d hd] at h
    injection h with h2
    simp only [Prod.mk.injEq, SamplingToken.cachedToken.injEq] at h2
    obtain ⟨-, ⟨ho, -⟩, -⟩ := h2
    have hlt : lcgNext g.gen % (g.table.length - d + 1) <
        g.table.length - d + 1 := Nat.mod_lt _ (by omega)
    rw [ho] at hlt
    exact ⟨by omega, fun hlen hd1000 => by omega⟩
  · rw [CachedGaussianSampling.sample_err g d (by omega)] at h
    cases h

/-- Witness for C5 at a concrete table and dimension. -/
theorem c5_offset_invariant_witness :
    lcgNext (0 : Nat) %
          ((⟨1, mkTable 7 5, 0⟩ : CachedGaussianSampling).table.length - 2 + 1) +
        2 ≤ (⟨1, mkTable 7 5, 0⟩ : CachedGaussianSampling).table.length ∧
      ((⟨1, mkTable 7 5, 0⟩ : CachedGaussianSampling).table.length = 10000000 →
        2 = 1000 →
        lcgNext (0 : Nat) %
          ((⟨1, mkTable 7 5, 0⟩ : CachedGaussianSampling).table.length - 2 + 1) ≤
          9999000) :=
  c5_offset_invariant ⟨1, mkTable 7 5, 0⟩ 2 _ _ _ _
    (CachedGaussianSampling.sample_eq ⟨1, mkTable 7 5, 0⟩ 2 (by decide))

/-- Claim C6: constructing CachedGaussianSampling with a table size
smaller than the required dimension fails with `ConfigError` at
construction, before any instance exists to sample from. -/
theorem c6_config_error (cfg : DeepESConfig) (dim : Nat)
    (h : cfg.cache_table_size < dim) :
    CachedGaussianSampling.create cfg dim =
      Except.error DeepESError.ConfigError := by
  unfold CachedGaussianSampling.create
  rw [if_pos h]

/-- Witness for C6 at a concrete undersized table. -/
theorem c6_config_error_witness :
    CachedGaussianSampling.create ⟨"cached-Gaussian", 1, 5, 42, []⟩ 10 =
      Except.error DeepESError.ConfigError :=
  c6_config_error ⟨"cached-Gaussian", 1, 5, 42, []⟩ 10 (by decide)

/-- Claim C7: for every strategy, `resample` fails with `InvalidToken`
exactly when the token is malformed or out of range for the current
configuration, returning the error synchronously at that call;
otherwise it returns a noise vector of the requested length, never a
silently substituted result. -/
theorem c7_invalid_token (m : SamplingMethod) (t : SamplingToken)
    (d : Nat) :
    (m.validToken t d = false →
      m.resample t d = Except.error DeepESError.InvalidToken) ∧
    (m.validToken t d = true →
      ∃ v, m.resample t d = Except.ok v ∧ v.length = d) := by
  constructor
  · intro h
    cases m with
    | gaussian g =>
        cases t with
        | seedToken s => simp [SamplingMethod.validToken] at h
        | cachedToken o b => rfl
    | cached g =>
        cases t with
        | seedToken s => rfl
        | cachedToken o b =>
            simp only [SamplingMethod.validToken,
              decide_eq_false_iff_not] at h
            simp only [SamplingMethod.resample]
            rw [CachedGaussianSampling.resample_cached, if_neg h]
  · intro h
    cases m with
    | gaussian g =>
        cases t with
        | seedToken s =>
            exact ⟨mkNoise s d g.std_dev, rfl, mkNoise_length s d g.std_dev⟩
        | cachedToken o b => simp [SamplingMethod.validToken] at h
    | cached g =>
        cases t with
        | seedToken s => simp [SamplingMethod.validToken] at h
        | cachedToken o b =>
            simp only [SamplingMethod.validToken, decide_eq_true_eq] at h
            refine ⟨applySign b ((g.table.drop o).take d), ?_, ?_⟩
            · simp only [SamplingMethod.resample]
              rw [CachedGaussianSampling.resample_cached, if_pos h]
            · rw [applySign_length, List.length_take, List.length_drop]
              omega

/-- Witness for C7 at a concrete malformed token. -/
theorem c7_invalid_token_witness :
    (SamplingMethod.gaussian ⟨1, 0⟩).resample
        (SamplingToken.cachedToken 0 false) 5 =
      Except.error DeepESError.InvalidToken :=
  (c7_invalid_token (SamplingMethod.gaussian ⟨1, 0⟩)
    (SamplingToken.cachedToken 0 false) 5).1 rfl

/-- Claim C8: the cached noise table is generated exactly once at
construction, from the configured seed, and no sequence of `sample`
calls ever changes it. -/
theorem c8_table_once (cfg : DeepESConfig) (dim : Nat)
    (g : CachedGaussianSampling)
    (h : CachedGaussianSampling.create cfg dim = Except.ok g)
    (ds : List Nat) :
    (g.runSamples ds).table = g.table ∧
    g.table = mkTable cfg.seed cfg.cache_table_size := by
  refine ⟨CachedGaussianSampling.runSamples_table ds g, ?_⟩
  unfold CachedGaussianSampling.create at h
  split at h
  · cases h
  · injection h with h2
    subst h2
    rfl

/-- Witness for C8 at a concrete construction and sampling history. -/
theorem c8_table_once_witness :
    ((⟨1, mkTable 7 5, 7⟩ : CachedGaussianSampling).runSamples [2, 3]).table =
        (⟨1, mkTable 7 5, 7⟩ : CachedGaussianSampling).table ∧
      (⟨1, mkTable 7 5, 7⟩ : CachedGaussianSampling).table = mkTable 7 5 :=
  c8_table_once ⟨"cached-Gaussian", 1, 5, 7, []⟩ 3 ⟨1, mkTable 7 5, 7⟩
    rfl [2, 3]

/-- Claim C9: the factory is deterministic and effect-free: two calls
with the same configuration value produce equal instances, whose
observable `sample` and `resample` behavior is identical. -/
theorem c9_factory_deterministic (cfg : DeepESConfig) (dim : Nat)
    (m1 m2 : SamplingMethod) (t : SamplingToken) (d : Nat)
    (h1 : create_sampling_method cfg dim = Except.ok m1)
    (h2 : create_sampling_method cfg dim = Except.ok m2) :
    m1 = m2 ∧ m1.resample t d = m2.resample t d ∧
    m1.sample d = m2.sample d := by
  have h := h1.symm.trans h2
  injection h with h3
  subst h3
  exact ⟨rfl, rfl, rfl⟩

/-- Witness for C9 at a concrete configuration. -/
theorem c9_factory_deterministic_witness :
    SamplingMethod.gaussian ⟨1, 9⟩ = SamplingMethod.gaussian ⟨1, 9⟩ ∧
      (SamplingMethod.gaussian ⟨1, 9⟩).resample (SamplingToken.seedToken 3) 2 =
        (SamplingMethod.gaussian ⟨1, 9⟩).resample (SamplingToken.seedToken 3) 2 ∧
      (SamplingMethod.gaussian ⟨1, 9⟩).sample 2 =
        (SamplingMethod.gaussian ⟨1, 9⟩).sample 2 :=
  c9_factory_deterministic ⟨"plain-Gaussian", 1, 0, 9, []⟩ 4
    (SamplingMethod.gaussian ⟨1, 9⟩) (SamplingMethod.gaussian ⟨1, 9⟩)
    (SamplingToken.seedToken 3) 2 rfl rfl

/-- Claim C10: the factory reads only the four sampling-related fields
of the configuration: two configurations agreeing on them produce the
same result, whatever the rest of the record contains (mutation of the
record is impossible in this purely functional embedding, matching the
const-reference interface of the declaration). -/
theorem c10_reads_only_fields (c1 c2 : DeepESConfig) (dim : Nat)
    (hk : c1.sampling_kind = c2.sampling_kind)
    (hs : c1.std_dev = c2.std_dev)
    (hts : c1.cache_table_size = c2.cache_table_size)
    (hsd : c1.seed = c2.seed) :
    create_sampling_method c1 dim = create_sampling_method c2 dim :=
  create_sampling_method_congr c1 c2 dim hk hs hts hsd

/-- Witness for C10 at two configurations differing only in the
unrelated part of the record. -/
theorem c10_reads_only_fields_witness :
    create_sampling_method ⟨"plain-Gaussian", 1, 5, 7, ["other"]⟩ 3 =
      create_sampling_method ⟨"plain-Gaussian", 1, 5, 7, []⟩ 3 :=
  c10_reads_only_fields ⟨"plain-Gaussian", 1, 5, 7, ["other"]⟩
    ⟨"plain-Gaussian", 1, 5, 7, []⟩ 3 rfl rfl rfl rfl

end DeepES
